import Mathlib

/-!
Verification of the Revvy robot framework core against its specification.

The definitions below are a shallow embedding of the Python sources:
  - src/utils.py                       (clip)
  - src/revvy/robot/ports/common.py    (FunctionAggregator, PortHandler, PortInstance)
  - src/revvy/ports/sensor.py          (SensorPortHandler, BaseSensorPort)
  - src/revvy/robot/drivetrain.py      (DifferentialDrivetrain)

Machine floats are modelled as rationals; hardware calls are modelled as
emitted command/event traces; Python exceptions (KeyError, ValueError,
EnvironmentError, AttributeError) are modelled with Except / error fields.
-/

namespace Revvy

/-- Python exception kinds raised by the embedded code. -/
inductive PyError
  | keyError
  | valueError
  | environmentError
  | attributeError
  deriving DecidableEq, Repr

/-- Modelled from the spec: `revvy.robot.ports.motor.MotorStatus` is imported by
drivetrain.py but its module is not under src/.  The spec (section 6) gives the
status enumeration Normal / GoalReached / Blocked. -/
inductive MotorStatus
  | normal
  | goalReached
  | blocked
  deriving DecidableEq, Repr

/-- Callback tags the drivetrain registers on awaiters: `self._apply_release`
and, for timer awaiters, `t.cancel` of the one-shot Timer. -/
inductive DtCallback
  | applyRelease
  | timerCancelCb
  deriving DecidableEq, Repr

/-- Per-motor command payloads created by motor ports and sent through
`interface.set_motor_port_control_value`. -/
inductive MotorCommand
  | setPower (motor : Nat) (value : ℚ)
  | setSpeed (motor : Nat) (speed : ℚ) (powerLimit : Option ℚ)
  | relativePosition (motor : Nat) (degrees : ℚ) (speed : Option ℚ) (powerLimit : Option ℚ)
  deriving DecidableEq, Repr

/-- Observable side effects of drivetrain update handlers. -/
inductive Effect
  | sendCommands (cmds : List MotorCommand)
  | timerCancelled
  deriving DecidableEq, Repr

/-- Modelled from the spec: `revvy.utils.awaiter.AwaiterImpl` is not under
src/.  Spec section 4.2: states Pending -> Finished / Cancelled, one-shot;
`finish` / `cancel` fire the corresponding callback list exactly when the
terminal state is entered, otherwise they are no-ops. -/
inductive AwaiterState
  | pending
  | finished
  | cancelled
  deriving DecidableEq, Repr

/-- Modelled from the spec: awaiter with its registered callback lists
(the drivetrain only ever registers the callbacks in `DtCallback`). -/
structure Awaiter where
  state : AwaiterState
  onResultCbs : List DtCallback
  onCancelledCbs : List DtCallback
  deriving DecidableEq, Repr

/-- Modelled from the spec: `finish()` transitions a pending awaiter to
Finished and returns the on-result callbacks to invoke, in registration
order; otherwise it is a no-op. -/
def Awaiter.finish (a : Awaiter) : Awaiter × List DtCallback :=
  match a.state with
  | .pending => ({ a with state := .finished }, a.onResultCbs)
  | _ => (a, [])

/-- Modelled from the spec: `cancel()` transitions a pending awaiter to
Cancelled and returns the on-cancelled callbacks to invoke; otherwise no-op. -/
def Awaiter.cancel (a : Awaiter) : Awaiter × List DtCallback :=
  match a.state with
  | .pending => ({ a with state := .cancelled }, a.onCancelledCbs)
  | _ => (a, [])

/-- The awaiter as created by `DifferentialDrivetrain.move` and `turn_impl`:
pending, with `_apply_release` registered as on-cancelled and on-result. -/
def Awaiter.moveAwaiter : Awaiter :=
  { state := .pending, onResultCbs := [.applyRelease], onCancelledCbs := [.applyRelease] }

/-- The awaiter as created by `_create_timer_awaiter`: `t.cancel` then
`_apply_release` on-cancelled, `_apply_release` on-result. -/
def Awaiter.timerAwaiter : Awaiter :=
  { state := .pending, onResultCbs := [.applyRelease],
    onCancelledCbs := [.timerCancelCb, .applyRelease] }

/-- Embeds `clip` from src/utils.py lines 23-28. -/
def clip (x min_x max_x : ℚ) : ℚ :=
  if x < min_x then min_x
  else if x > max_x then max_x
  else x

/-- The `self._update_callback` variant of the drivetrain: None,
`_update_move` or `_update_turn`. -/
inductive UpdateCallback
  | nothing
  | moveCb
  | turnCb
  deriving DecidableEq, Repr

/-- State of `DifferentialDrivetrain` (drivetrain.py `__init__`).  Motor
`PortInstance` references are modelled by their port ids.  The Stopwatch
`_last_yaw_change_time` is modelled from the spec (revvy.utils.stopwatch is
not under src/) as the monotonic start time of the watch; `elapsed` is
`now - start`. -/
structure DifferentialDrivetrain where
  motors : List Nat := []
  leftMotors : List Nat := []
  rightMotors : List Nat := []
  awaiter : Option Awaiter := none
  updateCallback : UpdateCallback := .nothing
  targetAngle : ℚ := 0
  maxTurnWheelSpeed : ℚ := 0
  maxTurnPower : Option ℚ := none
  lastYawChangeStart : ℚ := 0
  lastYawAngle : ℚ := 0
  deriving DecidableEq, Repr

/-- Environment observed during a motor status event: the IMU yaw angle, the
monotonic clock and the current status of each motor port. -/
structure UpdateEnv where
  yaw : ℚ
  now : ℚ
  status : Nat → MotorStatus

namespace DifferentialDrivetrain

/-- Commands issued by `_apply_release`: zero power to every left and right
motor, in that order. -/
def releaseCommands (dt : DifferentialDrivetrain) : List MotorCommand :=
  dt.leftMotors.map (fun m => MotorCommand.setPower m 0)
    ++ dt.rightMotors.map (fun m => MotorCommand.setPower m 0)

/-- Commands issued by `_apply_speeds`. -/
def speedCommands (dt : DifferentialDrivetrain) (left right : ℚ) (powerLimit : Option ℚ) :
    List MotorCommand :=
  dt.leftMotors.map (fun m => MotorCommand.setSpeed m left powerLimit)
    ++ dt.rightMotors.map (fun m => MotorCommand.setSpeed m right powerLimit)

/-- Commands built by `move`. -/
def positionCommands (dt : DifferentialDrivetrain) (left right : ℚ)
    (leftSpeed rightSpeed powerLimit : Option ℚ) : List MotorCommand :=
  dt.leftMotors.map (fun m => MotorCommand.relativePosition m left leftSpeed powerLimit)
    ++ dt.rightMotors.map (fun m => MotorCommand.relativePosition m right rightSpeed powerLimit)

/-- Effects produced by firing a list of awaiter callbacks, in order. -/
def runCallbacks (dt : DifferentialDrivetrain) (cbs : List DtCallback) : List Effect :=
  cbs.map fun cb =>
    match cb with
    | .applyRelease => Effect.sendCommands (releaseCommands dt)
    | .timerCancelCb => Effect.timerCancelled

/-- Embeds `stop_release` at the effect level: `_cancel_awaiter` then
`_apply_release`. -/
def stopRelease (dt : DifferentialDrivetrain) : DifferentialDrivetrain × List Effect :=
  match dt.awaiter with
  | none => ({ dt with awaiter := none }, [Effect.sendCommands (releaseCommands dt)])
  | some aw =>
      let r := aw.cancel
      ({ dt with awaiter := none },
        runCallbacks dt r.2 ++ [Effect.sendCommands (releaseCommands dt)])

/-- Embeds `_update_move` (drivetrain.py lines 95-108). -/
def updateMove (dt : DifferentialDrivetrain) (env : UpdateEnv) (changed : Nat) :
    DifferentialDrivetrain × List Effect :=
  match dt.awaiter with
  | some aw =>
      if env.status changed = .blocked then
        let r := aw.cancel
        ({ dt with awaiter := some r.1 }, runCallbacks dt r.2)
      else if dt.motors.all (fun m => env.status m = .goalReached) then
        let r := aw.finish
        ({ dt with awaiter := some r.1 }, runCallbacks dt r.2)
      else (dt, [])
  | none =>
      if env.status changed = .blocked then stopRelease dt
      else (dt, [])

/-- Embeds `_update_turn_speed` (drivetrain.py lines 152-155). -/
def updateTurnSpeed (dt : DifferentialDrivetrain) (yaw : ℚ) : List Effect :=
  let error := dt.targetAngle - yaw
  let p := clip (error * 10) (-dt.maxTurnWheelSpeed) dt.maxTurnWheelSpeed
  [Effect.sendCommands (speedCommands dt (-p) p dt.maxTurnPower)]

/-- Embeds `_update_turn` (drivetrain.py lines 157-185). -/
def updateTurn (dt : DifferentialDrivetrain) (env : UpdateEnv) (changed : Nat) :
    DifferentialDrivetrain × List Effect :=
  match dt.awaiter with
  | some aw =>
      if env.status changed = .blocked then
        let r := aw.cancel
        ({ dt with updateCallback := .nothing, awaiter := some r.1 }, runCallbacks dt r.2)
      else if dt.lastYawAngle ≠ env.yaw then
        let dt2 := { dt with lastYawAngle := env.yaw, lastYawChangeStart := env.now }
        if |dt.targetAngle - env.yaw| < 1 then
          let r := aw.finish
          ({ dt2 with updateCallback := .nothing, awaiter := some r.1 }, runCallbacks dt r.2)
        else
          (dt2, updateTurnSpeed dt2 env.yaw)
      else if env.now - dt.lastYawChangeStart > 3 then
        let r := aw.cancel
        ({ dt with updateCallback := .nothing, awaiter := some r.1 }, runCallbacks dt r.2)
      else (dt, [])
  | none =>
      if env.status changed = .blocked then
        let r := stopRelease { dt with updateCallback := .nothing }
        (r.1, r.2)
      else if dt.lastYawAngle ≠ env.yaw then
        let dt2 := { dt with lastYawAngle := env.yaw, lastYawChangeStart := env.now }
        if |dt.targetAngle - env.yaw| < 1 then
          let r := stopRelease { dt2 with updateCallback := .nothing }
          (r.1, r.2)
        else
          (dt2, updateTurnSpeed dt2 env.yaw)
      else if env.now - dt.lastYawChangeStart > 3 then
        let r := stopRelease { dt with updateCallback := .nothing }
        (r.1, r.2)
      else (dt, [])

/-- Embeds `_on_motor_status_changed`: dispatch the current update callback. -/
def onMotorStatusChanged (dt : DifferentialDrivetrain) (env : UpdateEnv) (changed : Nat) :
    DifferentialDrivetrain × List Effect :=
  match dt.updateCallback with
  | .nothing => (dt, [])
  | .moveCb => updateMove dt env changed
  | .turnCb => updateTurn dt env changed

end DifferentialDrivetrain

/-- Callback tags held in a port's `FunctionAggregator` registries.  The
drivetrain subscribes `_on_motor_status_changed` and
`_on_motor_config_changed`; other subscribers are opaque. -/
inductive CbTag
  | dtOnStatusChanged
  | dtOnConfigChanged
  | other (n : Nat)
  deriving DecidableEq, Repr

/-- Per-motor-port subscription registries (the `on_status_changed` and
`on_config_changed` aggregators of each motor `PortInstance`), indexed by
port id. -/
structure SubsWorld where
  statusSubs : Nat → List CbTag
  configSubs : Nat → List CbTag

/-- Events in an operation's trace, in program order. -/
inductive OpEvent
  | cancelPrior (fired : List Effect)
  | effect (e : Effect)
  | awaiterCreated
  | timerStarted (timeout : ℚ)
  deriving DecidableEq, Repr

/-- Result of a drivetrain operation: the new state, the ordered trace of
events the operation performed, and the Python exception it raised, if any
(mutations made before the raise persist, as in Python). -/
structure OpResult where
  dt : DifferentialDrivetrain
  trace : List OpEvent
  err : Option PyError := none

/-- Property of an operation trace: its first event cancels and discards
the prior outstanding awaiter, and no later event is a cancellation — so
every hardware command and awaiter creation of the operation happens after
the prior awaiter was cancelled. -/
def CancelFirstTrace (evs : List OpEvent) : Prop :=
  (∃ fired, evs.head? = some (OpEvent.cancelPrior fired)) ∧
    ∀ f, OpEvent.cancelPrior f ∉ evs.tail

/-- Modelled from the spec: `revvy.utils.functions.rpm2dps` is not under
src/.  Speed units are degrees per second of wheel rotation (spec section
4.4), so one rpm is 6 dps. -/
def rpm2dps (rpm : ℚ) : ℚ := rpm * 6

/-- Modelled from the spec: the `MotorConstants` direction values used by
`drive` / `turn` / `set_speed` (the scripting module is not under src/). -/
inductive Direction
  | fwd
  | back
  | left
  | right
  deriving DecidableEq, Repr

/-- Modelled from the spec: the `MotorConstants` rotation-unit values. -/
inductive RotationUnit
  | rot
  | sec
  | turnAngle
  deriving DecidableEq, Repr

/-- Modelled from the spec: the `MotorConstants` speed-unit values. -/
inductive SpeedUnit
  | rpm
  | pwr
  deriving DecidableEq, Repr

namespace DifferentialDrivetrain

/-- Class attribute `max_rpm = 150`. -/
def maxRpm : ℚ := 150

/-- Lookup in the `multipliers` dict of `drive` (keys FWD / BACK); a missing
key raises KeyError. -/
def driveMult : Direction → Option ℚ
  | .fwd => some 1
  | .back => some (-1)
  | _ => none

/-- Lookup in `left_multipliers` of `turn` (keys LEFT / RIGHT). -/
def leftMult : Direction → Option ℚ
  | .left => some (-1)
  | .right => some 1
  | _ => none

/-- Lookup in `right_multipliers` of `turn`. -/
def rightMult : Direction → Option ℚ
  | .left => some 1
  | .right => some (-1)
  | _ => none

/-- Lookup in `turn_multipliers` of `turn`. -/
def turnMult : Direction → Option ℚ
  | .left => some 1
  | .right => some (-1)
  | _ => none

/-- Embeds `_cancel_awaiter` (drivetrain.py lines 84-87): swap the
outstanding awaiter out and cancel it. -/
def cancelAwaiter (dt : DifferentialDrivetrain) :
    DifferentialDrivetrain × List OpEvent :=
  match dt.awaiter with
  | none => ({ dt with awaiter := none }, [])
  | some aw =>
      let r := aw.cancel
      ({ dt with awaiter := none }, [OpEvent.cancelPrior (runCallbacks dt r.2)])

/-- Embeds `stop_release` at the operation level. -/
def stopReleaseOp (dt : DifferentialDrivetrain) : OpResult :=
  let c := cancelAwaiter dt
  { dt := c.1,
    trace := c.2 ++ [OpEvent.effect (Effect.sendCommands (releaseCommands c.1))] }

/-- Embeds `set_speeds` (drivetrain.py lines 110-115). -/
def setSpeeds (dt : DifferentialDrivetrain) (left right : ℚ) (powerLimit : Option ℚ) :
    OpResult :=
  let c := cancelAwaiter dt
  let dt1 := { c.1 with updateCallback := .moveCb }
  { dt := dt1,
    trace := c.2 ++ [OpEvent.effect (Effect.sendCommands (speedCommands dt1 left right powerLimit))] }

/-- Embeds `move` (drivetrain.py lines 312-330). -/
def move (dt : DifferentialDrivetrain) (left right : ℚ)
    (leftSpeed rightSpeed powerLimit : Option ℚ) : OpResult :=
  let c := cancelAwaiter dt
  let cmds := positionCommands c.1 left right leftSpeed rightSpeed powerLimit
  let dt1 := { c.1 with awaiter := some Awaiter.moveAwaiter, updateCallback := .moveCb }
  { dt := dt1,
    trace := c.2 ++ [OpEvent.awaiterCreated, OpEvent.effect (Effect.sendCommands cmds)] }

/-- Embeds `turn_impl` (drivetrain.py lines 187-207).  The IMU yaw and the
monotonic clock are read from `env`. -/
def turnImpl (dt : DifferentialDrivetrain) (env : UpdateEnv)
    (turnAngle wheelSpeed : ℚ) (powerLimit : Option ℚ) : OpResult :=
  let c := cancelAwaiter dt
  let dt1 := { c.1 with
    maxTurnWheelSpeed := wheelSpeed,
    maxTurnPower := powerLimit,
    targetAngle := turnAngle + env.yaw,
    lastYawChangeStart := env.now,
    lastYawAngle := env.yaw }
  let dt2 := { dt1 with awaiter := some Awaiter.moveAwaiter, updateCallback := .turnCb }
  { dt := dt2,
    trace := c.2 ++ [OpEvent.awaiterCreated]
      ++ (updateTurnSpeed dt2 env.yaw).map OpEvent.effect }

/-- Embeds `_create_timer_awaiter` (drivetrain.py lines 209-220); the caller
has already cancelled the prior awaiter. -/
def createTimerAwaiter (dt : DifferentialDrivetrain) (timeout : ℚ) :
    DifferentialDrivetrain × List OpEvent :=
  ({ dt with awaiter := some Awaiter.timerAwaiter },
    [OpEvent.awaiterCreated, OpEvent.timerStarted timeout])

/-- Embeds `drive` (drivetrain.py lines 222-267). -/
def drive (dt : DifferentialDrivetrain) (direction : Direction) (rotation : ℚ)
    (unitRotation : RotationUnit) (speed : ℚ) (unitSpeed : SpeedUnit) : OpResult :=
  let c := cancelAwaiter dt
  match unitRotation with
  | .rot =>
      match unitSpeed with
      | .rpm =>
          match driveMult direction with
          | some m =>
              let r := move c.1 (360 * rotation * m) (360 * rotation * m)
                (some (rpm2dps speed)) (some (rpm2dps speed)) none
              { dt := r.dt, trace := c.2 ++ r.trace }
          | none => { dt := c.1, trace := c.2, err := some .keyError }
      | .pwr =>
          match driveMult direction with
          | some m =>
              let r := move c.1 (360 * rotation * m) (360 * rotation * m)
                none none (some speed)
              { dt := r.dt, trace := c.2 ++ r.trace }
          | none => { dt := c.1, trace := c.2, err := some .keyError }
  | .sec =>
      match unitSpeed with
      | .rpm =>
          match driveMult direction with
          | some m =>
              let s := setSpeeds c.1 (rpm2dps speed * m) (rpm2dps speed * m) none
              let t := createTimerAwaiter s.dt rotation
              { dt := t.1, trace := c.2 ++ s.trace ++ t.2 }
          | none => { dt := c.1, trace := c.2, err := some .keyError }
      | .pwr =>
          match driveMult direction with
          | some m =>
              let s := setSpeeds c.1 (rpm2dps maxRpm * m) (rpm2dps maxRpm * m) (some speed)
              let t := createTimerAwaiter s.dt rotation
              { dt := t.1, trace := c.2 ++ s.trace ++ t.2 }
          | none => { dt := c.1, trace := c.2, err := some .keyError }
  | .turnAngle => { dt := c.1, trace := c.2, err := some .valueError }

/-- Embeds the public `turn` (drivetrain.py lines 269-310). -/
def turn (dt : DifferentialDrivetrain) (env : UpdateEnv) (direction : Direction)
    (rotation : ℚ) (unitRotation : RotationUnit) (speed : ℚ) (unitSpeed : SpeedUnit) :
    OpResult :=
  let c := cancelAwaiter dt
  let resolved : Option ℚ × ℚ :=
    match unitSpeed with
    | .rpm => (none, speed)
    | .pwr => (some speed, maxRpm)
  match unitRotation with
  | .sec =>
      match leftMult direction, rightMult direction with
      | some lm, some rm =>
          let s := setSpeeds c.1 (rpm2dps resolved.2 * lm) (rpm2dps resolved.2 * rm)
            resolved.1
          let t := createTimerAwaiter s.dt rotation
          { dt := t.1, trace := c.2 ++ s.trace ++ t.2 }
      | _, _ => { dt := c.1, trace := c.2, err := some .keyError }
  | .turnAngle =>
      match turnMult direction with
      | some tm =>
          let r := turnImpl c.1 env (rotation * tm) (rpm2dps resolved.2) resolved.1
          { dt := r.dt, trace := c.2 ++ r.trace }
      | none => { dt := c.1, trace := c.2, err := some .keyError }
  | .rot => { dt := c.1, trace := c.2, err := some .valueError }

/-- Embeds `_add_motor` (drivetrain.py lines 68-72): append to the combined
group and subscribe the drivetrain's two callbacks on the port. -/
def addMotor (dt : DifferentialDrivetrain) (w : SubsWorld) (motor : Nat) :
    DifferentialDrivetrain × SubsWorld :=
  ({ dt with motors := dt.motors ++ [motor] },
    { statusSubs := fun i =>
        if i = motor then w.statusSubs i ++ [CbTag.dtOnStatusChanged] else w.statusSubs i,
      configSubs := fun i =>
        if i = motor then w.configSubs i ++ [CbTag.dtOnConfigChanged] else w.configSubs i })

/-- Embeds `add_left_motor`. -/
def addLeftMotor (dt : DifferentialDrivetrain) (w : SubsWorld) (motor : Nat) :
    DifferentialDrivetrain × SubsWorld :=
  addMotor { dt with leftMotors := dt.leftMotors ++ [motor] } w motor

/-- Embeds `add_right_motor`. -/
def addRightMotor (dt : DifferentialDrivetrain) (w : SubsWorld) (motor : Nat) :
    DifferentialDrivetrain × SubsWorld :=
  addMotor { dt with rightMotors := dt.rightMotors ++ [motor] } w motor

/-- Embeds `reset` (drivetrain.py lines 56-66): cancel the awaiter,
unsubscribe the drivetrain's callbacks from every motor, clear the groups. -/
def reset (dt : DifferentialDrivetrain) (w : SubsWorld) :
    DifferentialDrivetrain × SubsWorld × List OpEvent :=
  let c := cancelAwaiter dt
  let w2 : SubsWorld := dt.motors.foldl
    (fun acc m =>
      { statusSubs := fun i =>
          if i = m then (acc.statusSubs i).erase CbTag.dtOnStatusChanged
          else acc.statusSubs i,
        configSubs := fun i =>
          if i = m then (acc.configSubs i).erase CbTag.dtOnConfigChanged
          else acc.configSubs i })
    w
  ({ c.1 with motors := [], leftMotors := [], rightMotors := [] }, w2, c.2)

/-- Embeds `_on_motor_config_changed` (drivetrain.py lines 37-45):
`self._motors.remove(motor)` raises ValueError when the motor is absent
(and then nothing has been mutated); the left / right removals are wrapped
in `suppress(ValueError)`.  The port subscription registries are not
touched. -/
def onMotorConfigChanged (dt : DifferentialDrivetrain) (w : SubsWorld) (motor : Nat) :
    Except PyError (DifferentialDrivetrain × SubsWorld) :=
  if motor ∈ dt.motors then
    .ok ({ dt with
      motors := dt.motors.erase motor,
      leftMotors := dt.leftMotors.erase motor,
      rightMotors := dt.rightMotors.erase motor }, w)
  else
    .error .valueError

end DifferentialDrivetrain

namespace FunctionAggregator

/-- Embeds `FunctionAggregator.add` (common.py line 12): `list.append`. -/
def add {α : Type} (callbacks : List α) (c : α) : List α := callbacks ++ [c]

/-- Embeds `FunctionAggregator.remove` (common.py lines 15-17):
`list.remove` with `suppress(ValueError)` removes the first occurrence and
is a no-op when the callback is absent. -/
def remove {α : Type} [DecidableEq α] (callbacks : List α) (c : α) : List α :=
  callbacks.erase c

/-- Embeds `FunctionAggregator.clear` (common.py line 13). -/
def clearAll {α : Type} (_callbacks : List α) : List α := []

/-- Embeds `FunctionAggregator.__call__` (common.py lines 19-21): the
sequence of calls made, in iteration order over the callback list. -/
def invokeTrace {α : Type} (callbacks : List α) : List α :=
  callbacks.foldr (fun f acc => f :: acc) []

end FunctionAggregator

/-- Embeds `PortDriver` state (common.py lines 24-41): the `driver` name
used for the hardware type lookup, the captured driver config, and the
`on_status_changed` aggregator. -/
structure PortDriver where
  driver : String
  cfg : Option Nat
  statusCallbacks : List CbTag := []
  deriving DecidableEq, Repr

/-- Embeds `PortDriver.uninitialize` (common.py lines 40-41): clear the
status-changed callbacks. -/
def PortDriver.uninit (d : PortDriver) : PortDriver :=
  { d with statusCallbacks := [] }

/-- Configuration record handed to `configure_port`: `{driver, config}`. -/
structure PortConfig where
  driver : String
  config : Nat
  deriving DecidableEq, Repr

/-- Embeds `PortInstance` state (common.py lines 113-147).  `token` models
Python object identity: a freshly constructed instance carries a token never
used before. -/
structure PortInstance where
  id : Nat
  token : Nat
  driver : Option PortDriver := none
  configCallbacks : List CbTag := []
  deriving DecidableEq, Repr

/-- A freshly constructed `PortInstance` as created in
`PortHandler.__init__`: `self._driver = None`. -/
def PortInstance.fresh (idx token : Nat) : PortInstance :=
  { id := idx, token := token }

/-- Embeds `__getattr__` (common.py lines 146-147): attribute access
delegates to `self._driver.__getattribute__`; when `_driver` is None this
raises AttributeError instead of resolving through a driver object. -/
def PortInstance.delegate (p : PortInstance) : Except PyError PortDriver :=
  match p.driver with
  | some d => .ok d
  | none => .error .attributeError

/-- Embeds `PortHandler` state (common.py lines 63-74): driver factories by
name, hardware type codes by driver-type name, and the default (null)
driver. -/
structure PortHandler where
  drivers : List (String × (Nat → Nat → PortDriver))
  types : List (String × Nat)
  defaultDriver : PortDriver
  portCount : Nat

/-- The ports dictionary built in `PortHandler.__init__`:
`{i: PortInstance(i, interface, self.configure_port) for i in range(1, amount + 1)}`.
Tokens mark each instance as a distinct fresh object. -/
def PortHandler.makePorts (amount : Nat) : List PortInstance :=
  (List.range amount).map (fun i => PortInstance.fresh (i + 1) i)

/-- Observable events of a reconfiguration, in program order. -/
inductive PortEvent
  | notifyConfigChanged (cfg : Option PortConfig)
  | uninitOldDriver
  | setPortType (portId : Nat) (typeCode : Nat)
  | onPortTypeSet
  | driverInstalled
  deriving DecidableEq, Repr

/-- Embeds `PortHandler.configure_port` (common.py lines 97-110).  A config
naming an absent driver raises KeyError from `self._drivers[new_driver_name]`;
an absent type name raises KeyError from `self._types[driver.driver]`.  On
success the hardware port type is programmed and the new driver's
`on_port_type_set` hook runs. -/
def PortHandler.configurePort (h : PortHandler) (portId : Nat)
    (config : Option PortConfig) : Except PyError (PortDriver × List PortEvent) :=
  match config with
  | none =>
      match h.types.lookup h.defaultDriver.driver with
      | none => .error .keyError
      | some t =>
          .ok (h.defaultDriver, [PortEvent.setPortType portId t, PortEvent.onPortTypeSet])
  | some cfg =>
      match h.drivers.lookup cfg.driver with
      | none => .error .keyError
      | some factory =>
          let driver := factory portId cfg.config
          match h.types.lookup driver.driver with
          | none => .error .keyError
          | some t =>
              .ok (driver, [PortEvent.setPortType portId t, PortEvent.onPortTypeSet])

/-- Result of `PortInstance.configure`. -/
structure ConfigureResult where
  port : PortInstance
  events : List PortEvent
  err : Option PyError := none

/-- Embeds `PortInstance.configure` (common.py lines 133-141): notify
config-changed subscribers with None, tear the old driver down if there is
one, run the handler's configure logic, bind the new driver, notify with the
new config.  If the handler's configure logic raises, the bind and the
second notification never happen and the old (now torn down) driver stays
bound. -/
def PortInstance.configure (h : PortHandler) (p : PortInstance)
    (config : Option PortConfig) : ConfigureResult :=
  let evs0 := [PortEvent.notifyConfigChanged none]
  let evs1 := if p.driver.isSome then [PortEvent.uninitOldDriver] else []
  let p1 := { p with driver := p.driver.map PortDriver.uninit }
  match h.configurePort p.id config with
  | .error e => { port := p1, events := evs0 ++ evs1, err := some e }
  | .ok (d, evs2) =>
      { port := { p1 with driver := some d },
        events := evs0 ++ evs1 ++ evs2
          ++ [PortEvent.driverInstalled, PortEvent.notifyConfigChanged config] }

/-- Embeds `PortHandler.reset` (common.py lines 91-93): `uninitialize`
(that is, `configure(None)`) every owned port; the port objects themselves
are kept. -/
def PortHandler.resetPorts (h : PortHandler) (ports : List PortInstance) :
    List PortInstance :=
  ports.map (fun p => (PortInstance.configure h p none).port)

/-- The old ports module's `PortInstance` (constructed as
`PortInstance(i + 1, self)` in src/revvy/ports/sensor.py line 24); its
defining module revvy/ports/common.py is not under src/.  `token` models
Python object identity. -/
structure OldPortInstance where
  token : Nat
  id : Nat
  deriving DecidableEq, Repr

/-- State of `SensorPortHandler` from src/revvy/ports/sensor.py.
`nextToken` is the supply of fresh object-identity tokens. -/
structure SensorPortHandler where
  portCount : Nat
  ports : List OldPortInstance
  nextToken : Nat
  deriving DecidableEq, Repr

/-- Embeds `SensorPortHandler.reset` (src/revvy/ports/sensor.py lines
22-24): after the superclass reset (modelled from the spec: the old
revvy/ports/common.py base class is not under src/; spec section 4.3 says it
uninitializes every owned port), the handler rebuilds `self._ports` with
freshly constructed `PortInstance` objects, one per port index. -/
def SensorPortHandler.reset (h : SensorPortHandler) : SensorPortHandler :=
  { portCount := h.portCount,
    ports := (List.range h.portCount).map
      (fun i => { token := h.nextToken + i, id := i + 1 }),
    nextToken := h.nextToken + h.portCount }

/-- Embeds `BaseSensorPort` state (src/revvy/ports/sensor.py lines 27-51). -/
structure BaseSensorPort where
  configured : Bool
  value : Nat
  deriving DecidableEq, Repr

/-- Embeds `BaseSensorPort.read` (src/revvy/ports/sensor.py lines 38-45):
reading an unconfigured port raises EnvironmentError before any hardware
access; otherwise the raw hardware value is converted and cached. -/
def BaseSensorPort.read (s : BaseSensorPort) (raw : List Nat)
    (convert : List Nat → Nat) : Except PyError (List Nat × Nat) :=
  if s.configured then .ok (raw, convert raw)
  else .error .environmentError

/-! Concrete fixtures used by witnesses and counterexamples. -/

/-- A concrete motor-driver factory. -/
def facA : Nat → Nat → PortDriver :=
  fun _ c => { driver := "DcMotor", cfg := some c }

/-- A concrete port handler: one known driver name, two known type codes. -/
def handlerA : PortHandler :=
  { drivers := [("RevvyMotor", facA)],
    types := [("DcMotor", 1), ("NotConfigured", 0)],
    defaultDriver := { driver := "NotConfigured", cfg := none },
    portCount := 6 }

/-- A concrete driver bound to a port before reconfiguration. -/
def oldDriverA : PortDriver :=
  { driver := "DcMotor", cfg := some 7, statusCallbacks := [CbTag.other 3] }

/-- A concrete port with `oldDriverA` bound. -/
def portA : PortInstance :=
  { id := 1, token := 0, driver := some oldDriverA, configCallbacks := [CbTag.other 5] }

/-- A config naming a driver absent from `handlerA`'s driver map. -/
def cfgUnknown : PortConfig := { driver := "NoSuchDriver", config := 9 }

/-- A config naming the known driver of `handlerA`. -/
def cfgKnown : PortConfig := { driver := "RevvyMotor", config := 7 }

/-- A concrete sensor port handler before reset. -/
def sensorHandlerA : SensorPortHandler :=
  { portCount := 2,
    ports := [{ token := 0, id := 1 }, { token := 1, id := 2 }],
    nextToken := 2 }

/-- A subscription world with no subscribers. -/
def emptyWorld : SubsWorld :=
  { statusSubs := fun _ => [], configSubs := fun _ => [] }

/-- A concrete drivetrain in the middle of a `turn` operation: two motors,
an outstanding awaiter from `turn_impl`, target 90 degrees away. -/
def turningDt : DifferentialDrivetrain :=
  { motors := [1, 2], leftMotors := [1], rightMotors := [2],
    awaiter := some Awaiter.moveAwaiter, updateCallback := .turnCb,
    targetAngle := 90, maxTurnWheelSpeed := 100, maxTurnPower := none,
    lastYawChangeStart := 0, lastYawAngle := 10 }

/-- A concrete drivetrain in the middle of a `move` operation: three motors,
an outstanding awaiter from `move`. -/
def movingDt : DifferentialDrivetrain :=
  { motors := [1, 2, 3], leftMotors := [1, 2], rightMotors := [3],
    awaiter := some Awaiter.moveAwaiter, updateCallback := .moveCb }

/-- A concrete environment: yaw unchanged for four seconds, no motor blocked. -/
def stalledEnv : UpdateEnv :=
  { yaw := 10, now := 4, status := fun _ => MotorStatus.normal }

/-- A concrete environment where every motor reports goal-reached. -/
def goalEnv : UpdateEnv :=
  { yaw := 0, now := 0, status := fun _ => MotorStatus.goalReached }

/-! Theorems.  Helper lemmas come first, then one theorem per claim. -/

/-- The invocation trace of a `FunctionAggregator` is its callback list. -/
theorem invokeTrace_eq {α : Type} (l : List α) :
    FunctionAggregator.invokeTrace l = l := by
  unfold FunctionAggregator.invokeTrace
  induction l with
  | nil => rfl
  | cons x xs ih => simp only [List.foldr_cons]; rw [ih]

/-- C9 counterexample: with the same callback subscribed twice, one `remove`
leaves one subscription while a second `remove` deletes it too, so `remove`
is not idempotent; and an invoke calls that callback twice, not once. -/
theorem aggregator_remove_not_idempotent_counterexample :
    FunctionAggregator.remove (FunctionAggregator.remove ([0, 0] : List Nat) 0) 0 ≠
      FunctionAggregator.remove ([0, 0] : List Nat) 0 ∧
    (FunctionAggregator.invokeTrace ([0, 0] : List Nat)).count 0 = 2 := by
  decide

/-- C9 (amended): when no callback is subscribed more than once, an invoke
calls every currently subscribed callback exactly once, in subscription
order; removing an absent callback is a no-op; and `remove` is idempotent. -/
theorem aggregator_invoke_order_remove (l : List Nat) (c : Nat) (hnd : l.Nodup) :
    FunctionAggregator.invokeTrace l = l ∧
    (∀ x ∈ l, (FunctionAggregator.invokeTrace l).count x = 1) ∧
    (c ∉ l → FunctionAggregator.remove l c = l) ∧
    FunctionAggregator.remove (FunctionAggregator.remove l c) c =
      FunctionAggregator.remove l c := by
  refine ⟨invokeTrace_eq l, ?_, ?_, ?_⟩
  · intro x hx
    rw [invokeTrace_eq]
    exact List.count_eq_one_of_mem hnd hx
  · intro hc
    exact List.erase_of_not_mem hc
  · unfold FunctionAggregator.remove
    by_cases hc : c ∈ l
    · refine List.erase_of_not_mem ?_
      intro hmem
      exact ((List.Nodup.mem_erase_iff hnd).mp hmem).1 rfl
    · rw [List.erase_of_not_mem hc, List.erase_of_not_mem hc]

/-- C9 witness: the amended theorem applied at the concrete aggregator
state `[3, 5]`. -/
theorem aggregator_invoke_order_remove_witness :
    ([3, 5] : List Nat).Nodup ∧
    (FunctionAggregator.invokeTrace ([3, 5] : List Nat) = [3, 5] ∧
      (∀ x ∈ ([3, 5] : List Nat),
        (FunctionAggregator.invokeTrace ([3, 5] : List Nat)).count x = 1) ∧
      (5 ∉ ([3, 5] : List Nat) → FunctionAggregator.remove ([3, 5] : List Nat) 5 = [3, 5]) ∧
      FunctionAggregator.remove (FunctionAggregator.remove ([3, 5] : List Nat) 5) 5 =
        FunctionAggregator.remove ([3, 5] : List Nat) 5) :=
  ⟨by decide, aggregator_invoke_order_remove [3, 5] 5 (by decide)⟩

/-- Reconfiguration never changes a port's identity token. -/
theorem configure_preserves_token (h : PortHandler) (p : PortInstance)
    (config : Option PortConfig) :
    (PortInstance.configure h p config).port.token = p.token := by
  unfold PortInstance.configure
  cases h.configurePort p.id config with
  | error e => rfl
  | ok v => rfl

/-- Reconfiguration never changes a port's index. -/
theorem configure_preserves_id (h : PortHandler) (p : PortInstance)
    (config : Option PortConfig) :
    (PortInstance.configure h p config).port.id = p.id := by
  unfold PortInstance.configure
  cases h.configurePort p.id config with
  | error e => rfl
  | ok v => rfl

/-- C8 counterexample: `SensorPortHandler.reset` rebuilds the port
collection with freshly constructed `PortInstance` objects — the same
objects do not persist, even though the count is unchanged. -/
theorem sensor_reset_replaces_ports_counterexample :
    (sensorHandlerA.reset).ports ≠ sensorHandlerA.ports ∧
    (sensorHandlerA.reset).ports.length = sensorHandlerA.ports.length := by
  decide

/-- C8 (amended): the port collection's size is fixed at construction and
the base `PortHandler.reset` keeps the very same `PortInstance` objects,
only swapping drivers; `SensorPortHandler.reset`, however, rebuilds its
port list with fresh objects of the same count. -/
theorem port_collection_size_fixed (h : PortHandler) (ports : List PortInstance)
    (sh : SensorPortHandler) :
    (h.resetPorts ports).length = ports.length ∧
    (∀ i : Nat, ((h.resetPorts ports)[i]?).map PortInstance.token =
      (ports[i]?).map PortInstance.token) ∧
    (∀ i : Nat, ((h.resetPorts ports)[i]?).map PortInstance.id =
      (ports[i]?).map PortInstance.id) ∧
    (PortHandler.makePorts h.portCount).length = h.portCount ∧
    (sh.reset).ports.length = sh.portCount := by
  refine ⟨?_, ?_, ?_, ?_, ?_⟩
  · simp [PortHandler.resetPorts]
  · intro i
    simp only [PortHandler.resetPorts, List.getElem?_map]
    cases ports[i]? with
    | none => rfl
    | some p => simp [configure_preserves_token]
  · intro i
    simp only [PortHandler.resetPorts, List.getElem?_map]
    cases ports[i]? with
    | none => rfl
    | some p => simp [configure_preserves_id]
  · simp [PortHandler.makePorts]
  · simp [SensorPortHandler.reset]

/-- C7 counterexample: a freshly constructed, never-configured
`PortInstance` (as built by `PortHandler.__init__`) has `_driver = None`,
so attribute access does not resolve through a real driver object — it
raises AttributeError. -/
theorem fresh_port_driver_none_counterexample :
    (PortHandler.makePorts 6)[0]? = some (PortInstance.fresh 1 0) ∧
    (PortInstance.fresh 1 0).driver = none ∧
    PortInstance.delegate (PortInstance.fresh 1 0) = .error PyError.attributeError :=
  ⟨by decide, rfl, rfl⟩

/-- C7 (amended): unconfiguring an already-constructed port binds the
handler's dedicated default (null) driver rather than leaving the slot
empty, so attribute access then resolves through a real driver object; and
reading an unconfigured sensor port fails with EnvironmentError.  (A
freshly constructed, never-configured `PortInstance` is the exception: its
driver slot is None.) -/
theorem port_driver_after_configure (h : PortHandler) (p : PortInstance) (t : Nat)
    (ht : h.types.lookup h.defaultDriver.driver = some t) :
    (PortInstance.configure h p none).err = none ∧
    (PortInstance.configure h p none).port.driver = some h.defaultDriver ∧
    (PortInstance.configure h p none).port.driver ≠ none ∧
    PortInstance.delegate (PortInstance.configure h p none).port = .ok h.defaultDriver ∧
    (∀ (s : BaseSensorPort) (raw : List Nat) (convert : List Nat → Nat),
      s.configured = false → s.read raw convert = .error PyError.environmentError) := by
  have hconf : h.configurePort p.id none =
      .ok (h.defaultDriver, [PortEvent.setPortType p.id t, PortEvent.onPortTypeSet]) := by
    unfold PortHandler.configurePort
    rw [ht]
  refine ⟨?_, ?_, ?_, ?_, ?_⟩
  · unfold PortInstance.configure
    rw [hconf]
  · unfold PortInstance.configure
    rw [hconf]
  · unfold PortInstance.configure
    rw [hconf]
    simp
  · unfold PortInstance.configure
    rw [hconf]
    rfl
  · intro s raw convert hs
    unfold BaseSensorPort.read
    rw [hs]
    rfl

/-- C7 witness: the amended theorem applied to `handlerA` and a concrete
configured port. -/
theorem port_driver_after_configure_witness :
    handlerA.types.lookup handlerA.defaultDriver.driver = some 0 ∧
    ((PortInstance.configure handlerA portA none).err = none ∧
      (PortInstance.configure handlerA portA none).port.driver = some handlerA.defaultDriver ∧
      (PortInstance.configure handlerA portA none).port.driver ≠ none ∧
      PortInstance.delegate (PortInstance.configure handlerA portA none).port =
        .ok handlerA.defaultDriver ∧
      (∀ (s : BaseSensorPort) (raw : List Nat) (convert : List Nat → Nat),
        s.configured = false → s.read raw convert = .error PyError.environmentError)) :=
  ⟨rfl, port_driver_after_configure handlerA portA 0 rfl⟩

/-- C6 counterexample: configuring `portA` with a driver name absent from
`handlerA`'s driver map raises a KeyError (there is no `UnknownDriverError`
in the code), and the port is NOT left in the null/unconfigured state: the
previous driver object stays bound (merely torn down), so the state is not
"unchanged except for being unconfigured". -/
theorem configure_unknown_driver_counterexample :
    (PortInstance.configure handlerA portA (some cfgUnknown)).err = some PyError.keyError ∧
    (PortInstance.configure handlerA portA (some cfgUnknown)).port.driver ≠ none ∧
    (PortInstance.configure handlerA portA (some cfgUnknown)).port.driver ≠
      some handlerA.defaultDriver ∧
    (PortInstance.configure handlerA portA (some cfgUnknown)).port.driver =
      some (PortDriver.uninit oldDriverA) :=
  ⟨rfl, by decide, by decide, rfl⟩

/-- C6 (amended): a configure call naming an absent driver fails
synchronously with a KeyError from the driver-map lookup; at that point the
detach (None) notification has fired and the old driver has been torn down,
but the hardware port type is never reprogrammed, the attach notification
is never sent, and the port keeps its previous (torn-down) driver bound
instead of being rebound to the null driver. -/
theorem configure_unknown_driver_behavior (h : PortHandler) (p : PortInstance)
    (cfg : PortConfig) (hf : h.drivers.lookup cfg.driver = none) :
    (PortInstance.configure h p (some cfg)).err = some PyError.keyError ∧
    (PortInstance.configure h p (some cfg)).port.driver = p.driver.map PortDriver.uninit ∧
    (PortInstance.configure h p (some cfg)).port.id = p.id ∧
    (PortInstance.configure h p (some cfg)).port.token = p.token ∧
    (PortInstance.configure h p (some cfg)).port.configCallbacks = p.configCallbacks ∧
    (PortInstance.configure h p (some cfg)).events =
      [PortEvent.notifyConfigChanged none]
        ++ (if p.driver.isSome then [PortEvent.uninitOldDriver] else []) ∧
    (∀ pid tc, PortEvent.setPortType pid tc ∉ (PortInstance.configure h p (some cfg)).events) ∧
    PortEvent.notifyConfigChanged (some cfg) ∉ (PortInstance.configure h p (some cfg)).events := by
  have hstep : h.configurePort p.id (some cfg) =
      (match h.drivers.lookup cfg.driver with
        | none => Except.error PyError.keyError
        | some factory =>
          let driver := factory p.id cfg.config
          match h.types.lookup driver.driver with
          | none => Except.error PyError.keyError
          | some t =>
              Except.ok (driver,
                [PortEvent.setPortType p.id t, PortEvent.onPortTypeSet])) := rfl
  have hconf : h.configurePort p.id (some cfg) = .error PyError.keyError := by
    rw [hstep, hf]
  refine ⟨?_, ?_, ?_, ?_, ?_, ?_, ?_, ?_⟩ <;>
    unfold PortInstance.configure <;> rw [hconf]
  · intro pid tc
    by_cases hd : p.driver.isSome <;> simp [hd]
  · by_cases hd : p.driver.isSome <;> simp [hd]

/-- C6 witness: the amended theorem applied to `handlerA`, `portA` and the
unknown-driver config. -/
theorem configure_unknown_driver_behavior_witness :
    handlerA.drivers.lookup cfgUnknown.driver = none ∧
    ((PortInstance.configure handlerA portA (some cfgUnknown)).err = some PyError.keyError ∧
      (PortInstance.configure handlerA portA (some cfgUnknown)).port.driver =
        portA.driver.map PortDriver.uninit ∧
      (PortInstance.configure handlerA portA (some cfgUnknown)).port.id = portA.id ∧
      (PortInstance.configure handlerA portA (some cfgUnknown)).port.token = portA.token ∧
      (PortInstance.configure handlerA portA (some cfgUnknown)).port.configCallbacks =
        portA.configCallbacks ∧
      (PortInstance.configure handlerA portA (some cfgUnknown)).events =
        [PortEvent.notifyConfigChanged none]
          ++ (if portA.driver.isSome then [PortEvent.uninitOldDriver] else []) ∧
      (∀ pid tc, PortEvent.setPortType pid tc ∉
        (PortInstance.configure handlerA portA (some cfgUnknown)).events) ∧
      PortEvent.notifyConfigChanged (some cfgUnknown) ∉
        (PortInstance.configure handlerA portA (some cfgUnknown)).events) :=
  ⟨rfl, configure_unknown_driver_behavior handlerA portA cfgUnknown rfl⟩

/-- On success, `configure_port` always returns the two hardware events:
one port-type programming for the new driver's type code, then the
`on_port_type_set` hook. -/
theorem configurePort_ok_shape (h : PortHandler) (pid : Nat) (config : Option PortConfig)
    (d : PortDriver) (evs : List PortEvent)
    (hok : h.configurePort pid config = .ok (d, evs)) :
    ∃ t, h.types.lookup d.driver = some t ∧
      evs = [PortEvent.setPortType pid t, PortEvent.onPortTypeSet] := by
  unfold PortHandler.configurePort at hok
  cases config with
  | none =>
      cases hT : h.types.lookup h.defaultDriver.driver with
      | none =>
          rw [hT] at hok
          exact Except.noConfusion hok
      | some t =>
          rw [hT] at hok
          injection hok with h2
          obtain ⟨h3, h4⟩ := Prod.mk.injEq .. ▸ h2
          rw [← h3, ← h4]
          exact ⟨t, hT, rfl⟩
  | some cfg =>
      dsimp only at hok
      cases hF : h.drivers.lookup cfg.driver with
      | none =>
          rw [hF] at hok
          exact Except.noConfusion hok
      | some fac =>
          rw [hF] at hok
          dsimp only at hok
          cases hT : h.types.lookup (fac pid cfg.config).driver with
          | none =>
              rw [hT] at hok
              exact Except.noConfusion hok
          | some t =>
              rw [hT] at hok
              injection hok with h2
              obtain ⟨h3, h4⟩ := Prod.mk.injEq .. ▸ h2
              rw [← h3, ← h4]
              exact ⟨t, hT, rfl⟩

/-- C4: every `PortInstance.configure` call that completes programs the
hardware port type exactly once, strictly after the detach (None)
notification and strictly before the attach (new config) notification;
old-driver teardown, hardware reprogramming and new-driver installation
occur in that fixed order. -/
theorem configure_ordering (h : PortHandler) (p : PortInstance)
    (config : Option PortConfig)
    (hsucc : (PortInstance.configure h p config).err = none) :
    ∃ a b t, (PortInstance.configure h p config).events
        = a ++ [PortEvent.setPortType p.id t] ++ b ∧
      (∀ pid tc, PortEvent.setPortType pid tc ∉ a) ∧
      (∀ pid tc, PortEvent.setPortType pid tc ∉ b) ∧
      PortEvent.notifyConfigChanged none ∈ a ∧
      PortEvent.notifyConfigChanged config ∈ b ∧
      (p.driver.isSome → PortEvent.uninitOldDriver ∈ a) ∧
      PortEvent.driverInstalled ∈ b := by
  unfold PortInstance.configure at hsucc ⊢
  cases hcp : h.configurePort p.id config with
  | error e =>
      rw [hcp] at hsucc
      exact Option.noConfusion hsucc
  | ok v =>
      obtain ⟨d, evs⟩ := v
      obtain ⟨t, hT, hevs⟩ := configurePort_ok_shape h p.id config d evs hcp
      subst hevs
      refine ⟨[PortEvent.notifyConfigChanged none]
          ++ (if p.driver.isSome then [PortEvent.uninitOldDriver] else []),
        [PortEvent.onPortTypeSet, PortEvent.driverInstalled,
          PortEvent.notifyConfigChanged config], t, ?_, ?_, ?_, ?_, ?_, ?_, ?_⟩
      · by_cases hd : p.driver.isSome <;> simp [hd]
      · intro pid tc
        by_cases hd : p.driver.isSome <;> simp [hd]
      · intro pid tc
        simp
      · simp
      · simp
      · intro hd
        simp [hd]
      · simp

/-- C4 witness: the ordering theorem applied to `handlerA`, `portA` and the
known-driver config. -/
theorem configure_ordering_witness :
    (PortInstance.configure handlerA portA (some cfgKnown)).err = none ∧
    (∃ a b t, (PortInstance.configure handlerA portA (some cfgKnown)).events
        = a ++ [PortEvent.setPortType portA.id t] ++ b ∧
      (∀ pid tc, PortEvent.setPortType pid tc ∉ a) ∧
      (∀ pid tc, PortEvent.setPortType pid tc ∉ b) ∧
      PortEvent.notifyConfigChanged none ∈ a ∧
      PortEvent.notifyConfigChanged (some cfgKnown) ∈ b ∧
      (portA.driver.isSome → PortEvent.uninitOldDriver ∈ a) ∧
      PortEvent.driverInstalled ∈ b) :=
  ⟨rfl, configure_ordering handlerA portA (some cfgKnown) rfl⟩

/-- C10: after a motor is added to the left group, a config-changed event
for it removes it from the combined and left lists (removal from the right
list tolerates absence), while its status-changed and config-changed
subscriptions on the port are left in place; a second config-changed event
for the same (already removed) motor raises ValueError in the handler. -/
theorem motor_config_changed_spec (dt : DifferentialDrivetrain) (w : SubsWorld)
    (motor : Nat) (hm : motor ∉ dt.motors) (hl : motor ∉ dt.leftMotors) :
    DifferentialDrivetrain.onMotorConfigChanged
        (DifferentialDrivetrain.addLeftMotor dt w motor).1
        (DifferentialDrivetrain.addLeftMotor dt w motor).2 motor =
      .ok ({ dt with rightMotors := dt.rightMotors.erase motor },
        (DifferentialDrivetrain.addLeftMotor dt w motor).2) ∧
    CbTag.dtOnStatusChanged ∈
      (DifferentialDrivetrain.addLeftMotor dt w motor).2.statusSubs motor ∧
    CbTag.dtOnConfigChanged ∈
      (DifferentialDrivetrain.addLeftMotor dt w motor).2.configSubs motor ∧
    DifferentialDrivetrain.onMotorConfigChanged
        { dt with rightMotors := dt.rightMotors.erase motor }
        (DifferentialDrivetrain.addLeftMotor dt w motor).2 motor =
      .error PyError.valueError := by
  have herase : ∀ l : List Nat, motor ∉ l → (l ++ [motor]).erase motor = l := by
    intro l hnot
    rw [List.erase_append_right _ hnot]
    simp
  refine ⟨?_, ?_, ?_, ?_⟩
  · unfold DifferentialDrivetrain.onMotorConfigChanged
    rw [if_pos (by simp [DifferentialDrivetrain.addLeftMotor, DifferentialDrivetrain.addMotor])]
    simp [DifferentialDrivetrain.addLeftMotor, DifferentialDrivetrain.addMotor,
      herase _ hm, herase _ hl]
  · simp [DifferentialDrivetrain.addLeftMotor, DifferentialDrivetrain.addMotor]
  · simp [DifferentialDrivetrain.addLeftMotor, DifferentialDrivetrain.addMotor]
  · unfold DifferentialDrivetrain.onMotorConfigChanged
    have hmot : ({ dt with rightMotors := dt.rightMotors.erase motor }
        : DifferentialDrivetrain).motors = dt.motors := rfl
    rw [hmot, if_neg hm]

/-- C10 witness: the theorem applied to an empty drivetrain, the empty
subscription world and motor port 4. -/
theorem motor_config_changed_spec_witness :
    (4 ∉ (({} : DifferentialDrivetrain)).motors) ∧
    (4 ∉ (({} : DifferentialDrivetrain)).leftMotors) ∧
    (DifferentialDrivetrain.onMotorConfigChanged
        (DifferentialDrivetrain.addLeftMotor {} emptyWorld 4).1
        (DifferentialDrivetrain.addLeftMotor {} emptyWorld 4).2 4 =
      .ok ({ ({} : DifferentialDrivetrain) with
          rightMotors := (({} : DifferentialDrivetrain)).rightMotors.erase 4 },
        (DifferentialDrivetrain.addLeftMotor {} emptyWorld 4).2) ∧
     CbTag.dtOnStatusChanged ∈
       (DifferentialDrivetrain.addLeftMotor {} emptyWorld 4).2.statusSubs 4 ∧
     CbTag.dtOnConfigChanged ∈
       (DifferentialDrivetrain.addLeftMotor {} emptyWorld 4).2.configSubs 4 ∧
     DifferentialDrivetrain.onMotorConfigChanged
         { ({} : DifferentialDrivetrain) with
           rightMotors := (({} : DifferentialDrivetrain)).rightMotors.erase 4 }
         (DifferentialDrivetrain.addLeftMotor {} emptyWorld 4).2 4 =
       .error PyError.valueError) :=
  ⟨by decide, by decide, motor_config_changed_spec {} emptyWorld 4 (by decide) (by decide)⟩

/-- Clipping into a symmetric interval bounds the magnitude. -/
theorem abs_clip_le (x m : ℚ) (hm : 0 ≤ m) : |clip x (-m) m| ≤ m := by
  unfold clip
  split_ifs with h1 h2
  · rw [abs_neg, abs_of_nonneg hm]
  · rw [abs_of_nonneg hm]
  · rw [abs_le]
    constructor <;> linarith

/-- Cancelling a pending awaiter yields the cancelled awaiter and its
on-cancelled callbacks. -/
theorem cancel_pending (a : Awaiter) (h : a.state = .pending) :
    a.cancel = ({ a with state := .cancelled }, a.onCancelledCbs) := by
  unfold Awaiter.cancel
  rw [h]

/-- Finishing a pending awaiter yields the finished awaiter and its
on-result callbacks. -/
theorem finish_pending (a : Awaiter) (h : a.state = .pending) :
    a.finish = ({ a with state := .finished }, a.onResultCbs) := by
  unfold Awaiter.finish
  rw [h]

/-- Every left-group and right-group motor receives a zero-power command in
the release command list. -/
theorem mem_releaseCommands (dt : DifferentialDrivetrain) :
    ∀ m ∈ dt.leftMotors ++ dt.rightMotors,
      MotorCommand.setPower m 0 ∈ DifferentialDrivetrain.releaseCommands dt := by
  intro m hm
  unfold DifferentialDrivetrain.releaseCommands
  rcases List.mem_append.mp hm with h | h
  · exact List.mem_append.mpr (Or.inl (List.mem_map.mpr ⟨m, h, rfl⟩))
  · exact List.mem_append.mpr (Or.inr (List.mem_map.mpr ⟨m, h, rfl⟩))

/-- C1: in a move operation with a non-empty combined group and the
outstanding awaiter created by `move`, a motor status event finishes the
awaiter only when every motor of the combined group reports goal-reached,
cancels it immediately when the changed motor reports blocked, and on
either terminal transition emits exactly one release broadcast that
commands zero power to every motor of the left and right groups. -/
theorem move_awaiter_spec (dt : DifferentialDrivetrain) (env : UpdateEnv) (changed : Nat)
    (hcb : dt.updateCallback = .moveCb)
    (haw : dt.awaiter = some Awaiter.moveAwaiter)
    (hne : dt.motors ≠ [])
    (hmem : changed ∈ dt.motors) :
    ((∃ a, (DifferentialDrivetrain.onMotorStatusChanged dt env changed).1.awaiter = some a ∧
        a.state = .finished) →
      ∀ m ∈ dt.motors, env.status m = .goalReached) ∧
    (env.status changed = .blocked →
      (DifferentialDrivetrain.onMotorStatusChanged dt env changed).1.awaiter =
        some { Awaiter.moveAwaiter with state := .cancelled } ∧
      (DifferentialDrivetrain.onMotorStatusChanged dt env changed).2 =
        [Effect.sendCommands (DifferentialDrivetrain.releaseCommands dt)]) ∧
    ((∃ a, (DifferentialDrivetrain.onMotorStatusChanged dt env changed).1.awaiter = some a ∧
        a.state ≠ .pending) →
      (DifferentialDrivetrain.onMotorStatusChanged dt env changed).2 =
        [Effect.sendCommands (DifferentialDrivetrain.releaseCommands dt)]) ∧
    (∀ m ∈ dt.leftMotors ++ dt.rightMotors,
      MotorCommand.setPower m 0 ∈ DifferentialDrivetrain.releaseCommands dt) := by
  have hstep : DifferentialDrivetrain.onMotorStatusChanged dt env changed =
      DifferentialDrivetrain.updateMove dt env changed := by
    unfold DifferentialDrivetrain.onMotorStatusChanged
    rw [hcb]
  rw [hstep]
  unfold DifferentialDrivetrain.updateMove
  rw [haw]
  dsimp only
  rw [cancel_pending Awaiter.moveAwaiter rfl, finish_pending Awaiter.moveAwaiter rfl]
  by_cases hb : env.status changed = MotorStatus.blocked
  · rw [if_pos hb]
    refine ⟨?_, ?_, ?_, mem_releaseCommands dt⟩
    · rintro ⟨a, ha, hfin⟩
      have ha2 : ({ Awaiter.moveAwaiter with state := AwaiterState.cancelled } : Awaiter) = a :=
        Option.some.inj ha
      rw [← ha2] at hfin
      exact absurd hfin (by decide)
    · intro _
      exact ⟨rfl, rfl⟩
    · intro _
      rfl
  · rw [if_neg hb]
    by_cases hall :
        (dt.motors.all fun m => decide (env.status m = MotorStatus.goalReached)) = true
    · rw [if_pos hall]
      refine ⟨?_, fun hc => absurd hc hb, ?_, mem_releaseCommands dt⟩
      · intro _ m hm
        have hx := List.all_eq_true.mp hall m hm
        simpa using hx
      · intro _
        rfl
    · rw [if_neg hall]
      refine ⟨?_, fun hc => absurd hc hb, ?_, mem_releaseCommands dt⟩
      · rintro ⟨a, ha, hfin⟩
        have ha1 : some Awaiter.moveAwaiter = some a := by
          rw [← haw]
          exact ha
        have ha2 := Option.some.inj ha1
        rw [← ha2] at hfin
        exact absurd hfin (by decide)
      · rintro ⟨a, ha, hpend⟩
        have ha1 : some Awaiter.moveAwaiter = some a := by
          rw [← haw]
          exact ha
        have ha2 := Option.some.inj ha1
        rw [← ha2] at hpend
        exact (hpend rfl).elim

/-- C1 witness: the theorem applied to `movingDt` and the all-goal-reached
environment. -/
theorem move_awaiter_spec_witness :
    movingDt.updateCallback = .moveCb ∧
    movingDt.awaiter = some Awaiter.moveAwaiter ∧
    movingDt.motors ≠ [] ∧
    1 ∈ movingDt.motors ∧
    (((∃ a, (DifferentialDrivetrain.onMotorStatusChanged movingDt goalEnv 1).1.awaiter = some a ∧
        a.state = .finished) →
      ∀ m ∈ movingDt.motors, goalEnv.status m = .goalReached) ∧
    (goalEnv.status 1 = .blocked →
      (DifferentialDrivetrain.onMotorStatusChanged movingDt goalEnv 1).1.awaiter =
        some { Awaiter.moveAwaiter with state := .cancelled } ∧
      (DifferentialDrivetrain.onMotorStatusChanged movingDt goalEnv 1).2 =
        [Effect.sendCommands (DifferentialDrivetrain.releaseCommands movingDt)]) ∧
    ((∃ a, (DifferentialDrivetrain.onMotorStatusChanged movingDt goalEnv 1).1.awaiter = some a ∧
        a.state ≠ .pending) →
      (DifferentialDrivetrain.onMotorStatusChanged movingDt goalEnv 1).2 =
        [Effect.sendCommands (DifferentialDrivetrain.releaseCommands movingDt)]) ∧
    (∀ m ∈ movingDt.leftMotors ++ movingDt.rightMotors,
      MotorCommand.setPower m 0 ∈ DifferentialDrivetrain.releaseCommands movingDt)) :=
  ⟨rfl, rfl, by decide, by decide,
    move_awaiter_spec movingDt goalEnv 1 rfl rfl (by decide) (by decide)⟩

/-- C5: during a turn operation with an outstanding pending awaiter, a
motor status event where the changed motor is not blocked and the yaw angle
is unchanged, arriving more than 3 seconds after the last yaw change,
cancels the awaiter and clears the update callback — even though the goal
was never reached and no motor reported blocked. -/
theorem turn_stall_cancel (dt : DifferentialDrivetrain) (env : UpdateEnv) (changed : Nat)
    (aw : Awaiter)
    (hcb : dt.updateCallback = .turnCb)
    (haw : dt.awaiter = some aw)
    (hpend : aw.state = .pending)
    (hnb : env.status changed ≠ .blocked)
    (hyaw : dt.lastYawAngle = env.yaw)
    (hstall : env.now - dt.lastYawChangeStart > 3) :
    (DifferentialDrivetrain.onMotorStatusChanged dt env changed).1.updateCallback =
      .nothing ∧
    (DifferentialDrivetrain.onMotorStatusChanged dt env changed).1.awaiter =
      some { aw with state := .cancelled } ∧
    (DifferentialDrivetrain.onMotorStatusChanged dt env changed).2 =
      DifferentialDrivetrain.runCallbacks dt aw.onCancelledCbs := by
  have hstep : DifferentialDrivetrain.onMotorStatusChanged dt env changed =
      DifferentialDrivetrain.updateTurn dt env changed := by
    unfold DifferentialDrivetrain.onMotorStatusChanged
    rw [hcb]
  rw [hstep]
  unfold DifferentialDrivetrain.updateTurn
  rw [haw]
  dsimp only
  rw [if_neg hnb, hyaw]
  rw [if_neg (show ¬env.yaw ≠ env.yaw by simp), if_pos hstall, cancel_pending aw hpend]
  exact ⟨rfl, rfl, rfl⟩

/-- A send effect produced by firing awaiter callbacks always carries the
release command list. -/
theorem sendCommands_mem_runCallbacks (dt : DifferentialDrivetrain)
    (cbs : List DtCallback) (cmds : List MotorCommand)
    (h : Effect.sendCommands cmds ∈ DifferentialDrivetrain.runCallbacks dt cbs) :
    cmds = DifferentialDrivetrain.releaseCommands dt := by
  unfold DifferentialDrivetrain.runCallbacks at h
  rcases List.mem_map.mp h with ⟨cb, _, heq⟩
  cases cb with
  | applyRelease =>
      injection heq with h2
      exact h2.symm
  | timerCancelCb => exact Effect.noConfusion heq

/-- The release command list contains no speed commands. -/
theorem setSpeed_not_mem_release (dt : DifferentialDrivetrain) (m : Nat) (s : ℚ)
    (pl : Option ℚ) :
    MotorCommand.setSpeed m s pl ∉ DifferentialDrivetrain.releaseCommands dt := by
  intro h
  unfold DifferentialDrivetrain.releaseCommands at h
  rcases List.mem_append.mp h with h | h <;>
    rcases List.mem_map.mp h with ⟨x, _, heq⟩ <;>
    exact MotorCommand.noConfusion heq

/-- Every left-group motor receives the left speed in a speed broadcast. -/
theorem mem_speedCommands_left (dt : DifferentialDrivetrain) (l r : ℚ) (pl : Option ℚ) :
    ∀ m ∈ dt.leftMotors,
      MotorCommand.setSpeed m l pl ∈ DifferentialDrivetrain.speedCommands dt l r pl := by
  intro m hm
  unfold DifferentialDrivetrain.speedCommands
  exact List.mem_append.mpr (Or.inl (List.mem_map.mpr ⟨m, hm, rfl⟩))

/-- Every right-group motor receives the right speed in a speed broadcast. -/
theorem mem_speedCommands_right (dt : DifferentialDrivetrain) (l r : ℚ) (pl : Option ℚ) :
    ∀ m ∈ dt.rightMotors,
      MotorCommand.setSpeed m r pl ∈ DifferentialDrivetrain.speedCommands dt l r pl := by
  intro m hm
  unfold DifferentialDrivetrain.speedCommands
  exact List.mem_append.mpr (Or.inr (List.mem_map.mpr ⟨m, hm, rfl⟩))

/-- C2: during a turn operation, every speed command emitted by a motor
status event follows the steering law: the broadcast is exactly the
left/right speed command list built from
p = clip((target - yaw) * 10, -max, max), with -p commanded to every
left-group motor and +p to every right-group motor; for max >= 0 the
commanded magnitude never exceeds max. -/
theorem turn_steering_law (dt : DifferentialDrivetrain) (env : UpdateEnv) (changed : Nat)
    (p : ℚ)
    (hcb : dt.updateCallback = .turnCb)
    (hm : 0 ≤ dt.maxTurnWheelSpeed)
    (hp : p = clip ((dt.targetAngle - env.yaw) * 10)
      (-dt.maxTurnWheelSpeed) dt.maxTurnWheelSpeed) :
    (∀ cmds, Effect.sendCommands cmds ∈
        (DifferentialDrivetrain.onMotorStatusChanged dt env changed).2 →
      (∃ m s pl, MotorCommand.setSpeed m s pl ∈ cmds) →
      cmds = DifferentialDrivetrain.speedCommands dt (-p) p dt.maxTurnPower) ∧
    (∀ m ∈ dt.leftMotors, MotorCommand.setSpeed m (-p) dt.maxTurnPower ∈
      DifferentialDrivetrain.speedCommands dt (-p) p dt.maxTurnPower) ∧
    (∀ m ∈ dt.rightMotors, MotorCommand.setSpeed m p dt.maxTurnPower ∈
      DifferentialDrivetrain.speedCommands dt (-p) p dt.maxTurnPower) ∧
    |p| ≤ dt.maxTurnWheelSpeed ∧
    (∀ m s pl, MotorCommand.setSpeed m s pl ∈
        DifferentialDrivetrain.speedCommands dt (-p) p dt.maxTurnPower →
      |s| ≤ dt.maxTurnWheelSpeed) := by
  have habs : |p| ≤ dt.maxTurnWheelSpeed := by
    rw [hp]
    exact abs_clip_le _ _ hm
  have hstep : DifferentialDrivetrain.onMotorStatusChanged dt env changed =
      DifferentialDrivetrain.updateTurn dt env changed := by
    unfold DifferentialDrivetrain.onMotorStatusChanged
    rw [hcb]
  refine ⟨?_, mem_speedCommands_left dt (-p) p dt.maxTurnPower,
    mem_speedCommands_right dt (-p) p dt.maxTurnPower, habs, ?_⟩
  · intro cmds hmem hex
    rw [hstep] at hmem
    unfold DifferentialDrivetrain.updateTurn DifferentialDrivetrain.stopRelease
      DifferentialDrivetrain.updateTurnSpeed at hmem
    rcases hawx : dt.awaiter with _ | aw
    · rw [hawx] at hmem
      dsimp only at hmem
      split_ifs at hmem with h1 h2 h3 h4
      · have h5 := List.mem_singleton.mp hmem
        injection h5 with h6
        rcases hex with ⟨m, s, pl, hs⟩
        rw [h6] at hs
        exact absurd hs (setSpeed_not_mem_release _ _ _ _)
      · have h5 := List.mem_singleton.mp hmem
        injection h5 with h6
        rcases hex with ⟨m, s, pl, hs⟩
        rw [h6] at hs
        exact absurd hs (setSpeed_not_mem_release _ _ _ _)
      · have h5 := List.mem_singleton.mp hmem
        injection h5 with h6
        rw [hp]
        exact h6
      · have h5 := List.mem_singleton.mp hmem
        injection h5 with h6
        rcases hex with ⟨m, s, pl, hs⟩
        rw [h6] at hs
        exact absurd hs (setSpeed_not_mem_release _ _ _ _)
      · exact absurd hmem (List.not_mem_nil _)
    · rw [hawx] at hmem
      dsimp only at hmem
      split_ifs at hmem with h1 h2 h3 h4
      · rcases hex with ⟨m, s, pl, hs⟩
        rw [sendCommands_mem_runCallbacks _ _ _ hmem] at hs
        exact absurd hs (setSpeed_not_mem_release _ _ _ _)
      · rcases hex with ⟨m, s, pl, hs⟩
        rw [sendCommands_mem_runCallbacks _ _ _ hmem] at hs
        exact absurd hs (setSpeed_not_mem_release _ _ _ _)
      · have h5 := List.mem_singleton.mp hmem
        injection h5 with h6
        rw [hp]
        exact h6
      · rcases hex with ⟨m, s, pl, hs⟩
        rw [sendCommands_mem_runCallbacks _ _ _ hmem] at hs
        exact absurd hs (setSpeed_not_mem_release _ _ _ _)
      · exact absurd hmem (List.not_mem_nil _)
  · intro m s pl hs
    unfold DifferentialDrivetrain.speedCommands at hs
    rcases List.mem_append.mp hs with h | h <;>
      rcases List.mem_map.mp h with ⟨x, _, heq⟩ <;>
      injection heq with e1 e2 e3
    · rw [← e2, abs_neg]
      exact habs
    · rw [← e2]
      exact habs

/-- C2 witness: the steering-law theorem applied to `turningDt` (target 90,
max wheel speed 100) at yaw 10, where p = clip(800, -100, 100) = 100. -/
theorem turn_steering_law_witness :
    turningDt.updateCallback = .turnCb ∧
    0 ≤ turningDt.maxTurnWheelSpeed ∧
    (100 : ℚ) = clip ((turningDt.targetAngle - stalledEnv.yaw) * 10)
      (-turningDt.maxTurnWheelSpeed) turningDt.maxTurnWheelSpeed ∧
    ((∀ cmds, Effect.sendCommands cmds ∈
        (DifferentialDrivetrain.onMotorStatusChanged turningDt stalledEnv 1).2 →
      (∃ m s pl, MotorCommand.setSpeed m s pl ∈ cmds) →
      cmds = DifferentialDrivetrain.speedCommands turningDt (-(100 : ℚ)) 100
        turningDt.maxTurnPower) ∧
    (∀ m ∈ turningDt.leftMotors, MotorCommand.setSpeed m (-(100 : ℚ)) turningDt.maxTurnPower ∈
      DifferentialDrivetrain.speedCommands turningDt (-(100 : ℚ)) 100 turningDt.maxTurnPower) ∧
    (∀ m ∈ turningDt.rightMotors, MotorCommand.setSpeed m (100 : ℚ) turningDt.maxTurnPower ∈
      DifferentialDrivetrain.speedCommands turningDt (-(100 : ℚ)) 100 turningDt.maxTurnPower) ∧
    |(100 : ℚ)| ≤ turningDt.maxTurnWheelSpeed ∧
    (∀ m s pl, MotorCommand.setSpeed m s pl ∈
        DifferentialDrivetrain.speedCommands turningDt (-(100 : ℚ)) 100 turningDt.maxTurnPower →
      |s| ≤ turningDt.maxTurnWheelSpeed)) :=
  ⟨rfl, by norm_num [turningDt], by norm_num [clip, turningDt, stalledEnv],
    turn_steering_law turningDt stalledEnv 1 100 rfl (by norm_num [turningDt])
      (by norm_num [clip, turningDt, stalledEnv])⟩

/-- More than three seconds have elapsed in the stalled environment. -/
theorem stalledEnv_gap : stalledEnv.now - turningDt.lastYawChangeStart > 3 := by
  norm_num [stalledEnv, turningDt]

/-- C5 witness: the theorem applied to `turningDt` and the stalled
environment (yaw unchanged, four seconds elapsed). -/
theorem turn_stall_cancel_witness :
    turningDt.updateCallback = .turnCb ∧
    turningDt.awaiter = some Awaiter.moveAwaiter ∧
    Awaiter.moveAwaiter.state = .pending ∧
    stalledEnv.status 1 ≠ .blocked ∧
    turningDt.lastYawAngle = stalledEnv.yaw ∧
    stalledEnv.now - turningDt.lastYawChangeStart > 3 ∧
    ((DifferentialDrivetrain.onMotorStatusChanged turningDt stalledEnv 1).1.updateCallback =
      .nothing ∧
    (DifferentialDrivetrain.onMotorStatusChanged turningDt stalledEnv 1).1.awaiter =
      some { Awaiter.moveAwaiter with state := .cancelled } ∧
    (DifferentialDrivetrain.onMotorStatusChanged turningDt stalledEnv 1).2 =
      DifferentialDrivetrain.runCallbacks turningDt Awaiter.moveAwaiter.onCancelledCbs) :=
  ⟨rfl, rfl, rfl, by decide, rfl, stalledEnv_gap,
    turn_stall_cancel turningDt stalledEnv 1 Awaiter.moveAwaiter rfl rfl rfl
      (by decide) rfl stalledEnv_gap⟩

/-- Cancelling through `_cancel_awaiter` with an outstanding awaiter
discards it and emits one cancellation event. -/
theorem cancelAwaiter_of_some (dt : DifferentialDrivetrain) (aw : Awaiter)
    (h : dt.awaiter = some aw) :
    DifferentialDrivetrain.cancelAwaiter dt =
      ({ dt with awaiter := none },
        [OpEvent.cancelPrior (DifferentialDrivetrain.runCallbacks dt (aw.cancel).2)]) := by
  unfold DifferentialDrivetrain.cancelAwaiter
  rw [h]

/-- C3: every motion-starting operation (`set_speeds`, `move`, `turn_impl`,
the public `turn`, `drive`, `stop_release`, `reset`) on a drivetrain with
an outstanding awaiter first cancels and discards it: the operation's trace
begins with the cancellation and contains no later cancellation, so every
hardware command and awaiter creation happens after it; the resulting state
holds at most the one freshly created awaiter (or none). -/
theorem single_awaiter_invariant (dt : DifferentialDrivetrain) (w : SubsWorld)
    (env : UpdateEnv) (aw : Awaiter) (l r rotation speed : ℚ)
    (ls rs pl : Option ℚ) (direction : Direction) (ur : RotationUnit) (us : SpeedUnit)
    (haw : dt.awaiter = some aw) :
    CancelFirstTrace (DifferentialDrivetrain.setSpeeds dt l r pl).trace ∧
    (DifferentialDrivetrain.setSpeeds dt l r pl).dt.awaiter = none ∧
    CancelFirstTrace (DifferentialDrivetrain.move dt l r ls rs pl).trace ∧
    (DifferentialDrivetrain.move dt l r ls rs pl).dt.awaiter = some Awaiter.moveAwaiter ∧
    CancelFirstTrace (DifferentialDrivetrain.turnImpl dt env rotation speed pl).trace ∧
    (DifferentialDrivetrain.turnImpl dt env rotation speed pl).dt.awaiter =
      some Awaiter.moveAwaiter ∧
    CancelFirstTrace (DifferentialDrivetrain.turn dt env direction rotation ur speed us).trace ∧
    CancelFirstTrace (DifferentialDrivetrain.drive dt direction rotation ur speed us).trace ∧
    CancelFirstTrace (DifferentialDrivetrain.stopReleaseOp dt).trace ∧
    (DifferentialDrivetrain.stopReleaseOp dt).dt.awaiter = none ∧
    CancelFirstTrace (DifferentialDrivetrain.reset dt w).2.2 ∧
    (DifferentialDrivetrain.reset dt w).1.awaiter = none := by
  have hc := cancelAwaiter_of_some dt aw haw
  refine ⟨?_, ?_, ?_, ?_, ?_, ?_, ?_, ?_, ?_, ?_, ?_, ?_⟩
  · unfold DifferentialDrivetrain.setSpeeds
    rw [hc]
    exact ⟨⟨_, rfl⟩, fun f => by simp⟩
  · unfold DifferentialDrivetrain.setSpeeds
    rw [hc]
  · unfold DifferentialDrivetrain.move
    rw [hc]
    exact ⟨⟨_, rfl⟩, fun f => by simp⟩
  · unfold DifferentialDrivetrain.move
    rw [hc]
  · unfold DifferentialDrivetrain.turnImpl
    rw [hc]
    exact ⟨⟨_, rfl⟩, fun f => by
      simp [DifferentialDrivetrain.updateTurnSpeed]⟩
  · unfold DifferentialDrivetrain.turnImpl
    rw [hc]
  · unfold DifferentialDrivetrain.turn
    rw [hc]
    cases ur <;> cases us <;> cases direction <;>
      exact ⟨⟨_, rfl⟩, fun f => by
        simp [DifferentialDrivetrain.setSpeeds, DifferentialDrivetrain.turnImpl,
          DifferentialDrivetrain.createTimerAwaiter, DifferentialDrivetrain.cancelAwaiter,
          DifferentialDrivetrain.updateTurnSpeed, DifferentialDrivetrain.leftMult,
          DifferentialDrivetrain.rightMult, DifferentialDrivetrain.turnMult]⟩
  · unfold DifferentialDrivetrain.drive
    rw [hc]
    cases ur <;> cases us <;> cases direction <;>
      exact ⟨⟨_, rfl⟩, fun f => by
        simp [DifferentialDrivetrain.setSpeeds, DifferentialDrivetrain.move,
          DifferentialDrivetrain.createTimerAwaiter, DifferentialDrivetrain.cancelAwaiter,
          DifferentialDrivetrain.driveMult]⟩
  · unfold DifferentialDrivetrain.stopReleaseOp
    rw [hc]
    exact ⟨⟨_, rfl⟩, fun f => by simp⟩
  · unfold DifferentialDrivetrain.stopReleaseOp
    rw [hc]
  · unfold DifferentialDrivetrain.reset
    rw [hc]
    exact ⟨⟨_, rfl⟩, fun f => by simp⟩
  · unfold DifferentialDrivetrain.reset
    rw [hc]

/-- C3 witness: the cancel-first theorem applied to `movingDt` (which holds
an outstanding move awaiter) at concrete operation arguments. -/
theorem single_awaiter_invariant_witness :
    movingDt.awaiter = some Awaiter.moveAwaiter ∧
    (CancelFirstTrace (DifferentialDrivetrain.setSpeeds movingDt 360 (-360) none).trace ∧
    (DifferentialDrivetrain.setSpeeds movingDt 360 (-360) none).dt.awaiter = none ∧
    CancelFirstTrace (DifferentialDrivetrain.move movingDt 360 (-360) none none none).trace ∧
    (DifferentialDrivetrain.move movingDt 360 (-360) none none none).dt.awaiter =
      some Awaiter.moveAwaiter ∧
    CancelFirstTrace (DifferentialDrivetrain.turnImpl movingDt stalledEnv 2 50 none).trace ∧
    (DifferentialDrivetrain.turnImpl movingDt stalledEnv 2 50 none).dt.awaiter =
      some Awaiter.moveAwaiter ∧
    CancelFirstTrace
      (DifferentialDrivetrain.turn movingDt stalledEnv .fwd 2 .sec 50 .rpm).trace ∧
    CancelFirstTrace (DifferentialDrivetrain.drive movingDt .fwd 2 .sec 50 .rpm).trace ∧
    CancelFirstTrace (DifferentialDrivetrain.stopReleaseOp movingDt).trace ∧
    (DifferentialDrivetrain.stopReleaseOp movingDt).dt.awaiter = none ∧
    CancelFirstTrace (DifferentialDrivetrain.reset movingDt emptyWorld).2.2 ∧
    (DifferentialDrivetrain.reset movingDt emptyWorld).1.awaiter = none) :=
  ⟨rfl, single_awaiter_invariant movingDt emptyWorld stalledEnv Awaiter.moveAwaiter
    360 (-360) 2 50 none none none .fwd .sec .rpm rfl⟩

end Revvy
